import Mathlib

/-!
Verification of the upload service in src/src/server.js.

The server is an Express application: a multer middleware stage (storage
engine, size limit, file filter) runs before the POST /upload route
handler; errors thrown in the middleware skip the handler and reach the
global error handler at the end of the chain.  We embed the relevant
pieces as pure Lean functions: strings are Lean strings, the in-memory
admission map keyed by client address is a list of keys, and filesystem
effects (existsSync, statSync, readdir) are passed in as explicit
function arguments.
-/

namespace VirtualTryOn

/-! ### Character-list string helpers -/

/-- Lowercase every character, as the i flag of a JS regex does for ASCII. -/
def toLowerL (l : List Char) : List Char := l.map Char.toLower

/-- Boolean list-prefix test; models s.indexOf(t) === 0 on strings. -/
def isPrefixL : List Char → List Char → Bool
  | [], _ => true
  | _ :: _, [] => false
  | a :: as, b :: bs => a == b && isPrefixL as bs

/-- Boolean list-suffix test, via reversal. -/
def isSuffixL (suf l : List Char) : Bool := isPrefixL suf.reverse l.reverse

/-! ### Model of Node path.join and path.extname (posix)

path.join(dir, name) concatenates with a separator and normalizes the
result: empty and dot segments are dropped, a dot-dot segment removes the
preceding segment (and is dropped at the root of an absolute path). -/

/-- Split a character list on the slash character, keeping empty segments. -/
def splitSlash : List Char → List (List Char)
  | [] => [[]]
  | c :: rest =>
    let r := splitSlash rest
    if c = '/' then [] :: r
    else
      match r with
      | [] => [[c]]
      | s :: ss => (c :: s) :: ss

/-- One normalization step over the segment stack (most recent segment first). -/
def normStep (stack : List (List Char)) (seg : List Char) : List (List Char) :=
  if seg = [] || seg = ['.'] then stack
  else if seg = ['.', '.'] then stack.tail
  else seg :: stack

/-- path.join(dir, name) for an absolute posix dir, on character lists. -/
def joinAbsL (dir name : List Char) : List Char :=
  let segs := splitSlash (dir ++ '/' :: name)
  let stack := segs.foldl normStep []
  '/' :: List.intercalate ['/'] stack.reverse

/-- path.join(dir, name) for an absolute posix dir. -/
def joinAbs (dir name : String) : String := String.mk (joinAbsL dir.data name.data)

/-- Helper for extname: scans the reversed basename, accumulating the
characters after the final dot in forward order; a dot that is the first
character of the basename yields no extension. -/
def extnameRevAux : List Char → List Char → List Char
  | _, [] => []
  | acc, c :: rest =>
    if c = '.' then (if rest.isEmpty then [] else '.' :: acc)
    else extnameRevAux (c :: acc) rest

/-- Node path.extname on character lists: the part of the basename from its
final dot on, empty when there is no dot or the only dot leads the
basename; the basename consisting of two dots has no extension. -/
def extnameL (l : List Char) : List Char :=
  let rb := l.reverse.takeWhile (fun c => c ≠ '/')
  if rb = ['.', '.'] then [] else extnameRevAux [] rb

/-- Node path.extname. -/
def extname (s : String) : String := String.mk (extnameL s.data)

/-! ### File validation (server.js lines 46-59, fileFilter) -/

def allowedTypes : List String :=
  ["image/jpeg", "image/jpg", "image/png", "image/gif", "image/webp",
   "model/gltf", "model/glb", "model/obj"]

def allowedExts : List String :=
  [".jpg", ".jpeg", ".png", ".gif", ".webp", ".gltf", ".glb", ".obj"]

/-- The case-insensitive extension regex of fileFilter: the original name,
lowercased, ends with one of the allow-listed lowercase extensions. -/
def extRegexMatch (name : String) : Bool :=
  allowedExts.any (fun e => isSuffixL e.data (toLowerL name.data))

/-- fileFilter acceptance: mime type equals an allow-listed type, or the
original filename matches the extension regex. -/
def fileFilter (mimetype originalname : String) : Bool :=
  allowedTypes.any (fun t => mimetype == t) || extRegexMatch originalname

/-- The message of the plain Error that fileFilter passes to its callback. -/
def fileFilterMessage : String := "Only image files and 3D models are allowed!"

/-- Case-insensitive ends-with on strings. -/
def endsWithCI (name suf : String) : Bool :=
  isSuffixL (toLowerL suf.data) (toLowerL name.data)

/-- Acceptance condition as the claim words it: the declared mime type
equals one of the eight enumerated types, or the original filename ends
case-insensitively with one of the eight enumerated extensions.  Stated
from the claim to be compared with fileFilter. -/
def specAccepts (mimetype originalname : String) : Prop :=
  (mimetype = "image/jpeg" ∨ mimetype = "image/jpg" ∨ mimetype = "image/png" ∨
   mimetype = "image/gif" ∨ mimetype = "image/webp" ∨ mimetype = "model/gltf" ∨
   mimetype = "model/glb" ∨ mimetype = "model/obj") ∨
  (endsWithCI originalname ".jpg" = true ∨ endsWithCI originalname ".jpeg" = true ∨
   endsWithCI originalname ".png" = true ∨ endsWithCI originalname ".gif" = true ∨
   endsWithCI originalname ".webp" = true ∨ endsWithCI originalname ".gltf" = true ∨
   endsWithCI originalname ".glb" = true ∨ endsWithCI originalname ".obj" = true)

/-! ### Filename generation (server.js lines 29-41, storage.filename)

filename is a template of Date.now(), a hyphen, Math.round of
Math.random() times 1E9, and path.extname of the original name.
Math.random() yields k / 2 to the 53rd for some natural k below 2 to the
53rd; we compute Math.round of the exact rational k times 1E9 over 2 to
the 53rd, that is floor of the value plus one half, in natural division. -/

/-- Math.round(Math.random() * 1E9) where Math.random() returned k over
2 to the 53rd: floor((k * 1E9 + 2 ^ 52) / 2 ^ 53). -/
def randomComponent (k : Nat) : Nat := (k * 1000000000 + 2 ^ 52) / 2 ^ 53

/-- The generated stored filename. -/
def storedFilename (timestamp k : Nat) (originalname : String) : String :=
  toString timestamp ++ "-" ++ toString (randomComponent k) ++ extname originalname

/-! ### Responses -/

/-- The JSON object returned on upload success (server.js lines 127-136). -/
structure UploadResult where
  success : Bool
  filename : String
  originalName : String
  size : Nat
  mimetype : String
  url : String
  uploadedAt : String
  uploadTime : String
  deriving DecidableEq

/-- One record of the GET /uploads listing. -/
structure FileRecord where
  name : String
  url : String
  size : Nat
  deriving DecidableEq

/-- Response bodies the embedded handlers produce. -/
inductive Body where
  | json (success : Bool) (error : String)
  | uploadOk (r : UploadResult)
  | listing (count : Nat) (files : List FileRecord)
  | fileErr (error : String)
  | sendFile (path : String)
  | routesJson (error : String) (available : List (String × String))
  | empty
  deriving DecidableEq

structure Response where
  status : Nat
  body : Body
  deriving DecidableEq

/-! ### Upload pipeline -/

/-- The file part of the incoming multipart request, before storage. -/
structure IncomingFile where
  originalname : String
  mimetype : String
  size : Nat
  deriving DecidableEq

/-- A file multer has written to disk (req.file in the handler). -/
structure SavedFile where
  originalname : String
  mimetype : String
  size : Nat
  filename : String
  deriving DecidableEq

/-- Outcome of the multer middleware stage for the one file field. -/
inductive MulterOutcome where
  | noFile
  | saved (f : SavedFile)
  | typeRejected
  | sizeRejected
  deriving DecidableEq

def maxFileSize : Nat := 10 * 1024 * 1024

/-- The multer middleware (upload.single, server.js lines 43-60): when a
file part is present, fileFilter is consulted first, on the file metadata,
before the body bytes stream to storage; a filter rejection aborts with
the plain filter Error, a stream exceeding the size limit aborts with the
MulterError code LIMIT_FILE_SIZE and the partial write is rolled back, and
otherwise the file is written under the generated stored name. -/
def multerStage (inc : Option IncomingFile) (storedName : String) : MulterOutcome :=
  match inc with
  | none => .noFile
  | some f =>
    if fileFilter f.mimetype f.originalname then
      if f.size > maxFileSize then .sizeRejected
      else .saved ⟨f.originalname, f.mimetype, f.size, storedName⟩
    else .typeRejected

def duplicateResponse : Response :=
  ⟨429, .json false "Upload already in progress. Please wait."⟩

def noFileResponse : Response :=
  ⟨400, .json false "No file uploaded or invalid file type"⟩

/-- The POST /upload route handler (server.js lines 68-141), which runs
after the multer middleware.  The uploadSessions map is modelled by its
key list; the stored value (ip concatenated with a timestamp) is never
read by the server, so it is omitted.  The handler rejects with 429 when
the client ip is already present, otherwise inserts the ip, and on both
remaining paths (missing file, success) deletes it before responding. -/
def uploadHandler (gate : List String) (ip : String) (file? : Option SavedFile)
    (nowIso : String) (elapsedMs : Nat) : List String × Response :=
  if gate.contains ip then (gate, duplicateResponse)
  else
    let gate1 := ip :: gate
    match file? with
    | none => (gate1.erase ip, noFileResponse)
    | some f =>
      (gate1.erase ip,
        ⟨200, .uploadOk ⟨true, f.filename, f.originalname, f.size, f.mimetype,
          "/uploads/" ++ f.filename, nowIso, toString elapsedMs ++ "ms"⟩⟩)

/-- Errors that reach the global error handler. -/
inductive ServerError where
  | limitFileSize
  | multerOther (msg : String)
  | plainError (msg : String)
  deriving DecidableEq

/-- The global error handler (server.js lines 222-242): a MulterError with
code LIMIT_FILE_SIZE gets the distinct size message, any other MulterError
gets a 400 with its message, and every non-multer error (which includes
the plain Error produced by fileFilter) gets the generic 500.  It never
touches the uploadSessions map. -/
def globalErrorHandler : ServerError → Response
  | .limitFileSize => ⟨400, .json false "File too large. Maximum size is 10MB."⟩
  | .multerOther msg => ⟨400, .json false ("Upload error: " ++ msg)⟩
  | .plainError _ => ⟨500, .json false "Internal server error"⟩

/-- The response a type-rejected file receives: its plain filter Error
falls through the MulterError branches of the global error handler. -/
def typeRejectedResponse : Response := globalErrorHandler (.plainError fileFilterMessage)

/-- Final state of one POST /upload request. -/
structure UploadOutcome where
  gate : List String
  response : Response
  written : Option String
  deriving DecidableEq

/-- One full POST /upload request: the multer middleware runs first; its
errors bypass the route handler and go to the global error handler, which
does not modify the admission map; when the middleware finishes cleanly
the route handler runs.  A file the middleware saved stays on disk
(multer rolls files back only on middleware errors, and the handler never
deletes them), recorded in the written field. -/
def processUpload (gate : List String) (ip : String) (inc : Option IncomingFile)
    (storedName : String) (nowIso : String) (elapsedMs : Nat) : UploadOutcome :=
  match multerStage inc storedName with
  | .typeRejected => ⟨gate, globalErrorHandler (.plainError fileFilterMessage), none⟩
  | .sizeRejected => ⟨gate, globalErrorHandler .limitFileSize, none⟩
  | .noFile =>
    let gr := uploadHandler gate ip none nowIso elapsedMs
    ⟨gr.1, gr.2, none⟩
  | .saved f =>
    let gr := uploadHandler gate ip (some f) nowIso elapsedMs
    ⟨gr.1, gr.2, some f.filename⟩

/-! ### Listing (server.js lines 145-167, GET /uploads) -/

/-- The map over directory entries in the listing handler: statSync each
joined path for its size.  statSync throwing (stat returning none) aborts
the whole map; there is no try-catch around it, modelled by the none
result propagating. -/
def statAll (dir : String) (stat : String → Option Nat) :
    List String → Option (List FileRecord)
  | [] => some []
  | f :: fs =>
    match stat (joinAbs dir f), statAll dir stat fs with
    | some sz, some rest => some (⟨f, "/uploads/" ++ f, sz⟩ :: rest)
    | _, _ => none

/-- What one run of the listing handler can do: respond, or let an
exception escape (no response at all). -/
inductive ListOutcome where
  | thrown
  | resp (r : Response)
  deriving DecidableEq

/-- The result of the fs.readdir callback: an error or the entry names. -/
inductive ReaddirResult where
  | readErr (msg : String)
  | entries (files : List String)
  deriving DecidableEq

/-- The GET /uploads handler: a readdir error yields the 500 JSON; on a
successful scan each entry is mapped through an unguarded statSync, so a
failing stat raises an exception (thrown) instead of any JSON response;
otherwise it responds 200 with the count and records. -/
def uploadsListHandler (dir : String) (readdirResult : ReaddirResult)
    (stat : String → Option Nat) : ListOutcome :=
  match readdirResult with
  | .readErr _ => .resp ⟨500, .json false "Failed to read uploads directory"⟩
  | .entries files =>
    match statAll dir stat files with
    | none => .thrown
    | some recs => .resp ⟨200, .listing recs.length recs⟩

/-! ### Retrieval (server.js lines 171-185, GET /uploads/:filename) -/

/-- The per-file handler: join the requested name onto the storage
directory, demand filePath.indexOf(uploadDir) === 0, then existsSync,
then sendFile. -/
def getUploadFileHandler (dir name : String) (fsExists : String → Bool) : Response :=
  let filePath := joinAbs dir name
  if isPrefixL dir.data filePath.data then
    if fsExists filePath then ⟨200, .sendFile filePath⟩
    else ⟨404, .fileErr "File not found"⟩
  else ⟨403, .fileErr "Access denied"⟩

/-- A path lies within the storage directory: it is the directory itself
or sits below it (directory path followed by a separator). -/
def withinDir (dir p : String) : Bool :=
  p == dir || isPrefixL (dir ++ "/").data p.data

/-! ### Routing (server.js lines 63-219) -/

/-- The 405 middleware registered after the 404 catch-all
(server.js lines 212-219). -/
def methodNotAllowedHandler (m p : String) : Response :=
  ⟨405, .json false ("Method " ++ m ++ " not allowed for " ++ p)⟩

/-! ## Shared lemmas -/

/-- When the client ip is not gated, the route handler leaves the
admission map exactly as it found it: it inserts the ip and deletes it
again on both of its exit paths. -/
theorem uploadHandler_gate_eq (gate : List String) (ip : String) (file? : Option SavedFile)
    (now : String) (el : Nat) (h : gate.contains ip = false) :
    (uploadHandler gate ip file? now el).1 = gate := by
  have h' : ip ∉ gate := by simpa using h
  cases file? <;> simp [uploadHandler, h', List.erase_cons_head]

/-- When the client ip is not gated, a full request leaves the admission
map unchanged: middleware errors never touch it, and the handler removes
what it inserted. -/
theorem processUpload_gate_eq (gate : List String) (ip : String) (inc : Option IncomingFile)
    (sn now : String) (el : Nat) (h : gate.contains ip = false) :
    (processUpload gate ip inc sn now el).gate = gate := by
  rcases hm : multerStage inc sn with _ | f | _ | _ <;>
    simp [processUpload, hm, uploadHandler_gate_eq gate ip _ now el h]

/-- When the client ip is not gated, no request path answers 429: the
handler paths answer 400 or 200 and the error handler answers 400 or 500. -/
theorem processUpload_not_429 (gate : List String) (ip : String) (inc : Option IncomingFile)
    (sn now : String) (el : Nat) (h : gate.contains ip = false) :
    (processUpload gate ip inc sn now el).response.status ≠ 429 := by
  have h' : ip ∉ gate := by simpa using h
  rcases hm : multerStage inc sn with _ | f | _ | _ <;>
    simp [processUpload, hm, uploadHandler, h', globalErrorHandler,
      noFileResponse, duplicateResponse]

/-! ## Claims -/

/-- Claim C1 counterexample: a duplicate request (the client ip already
gated) carrying a valid file is answered 429, yet file processing has
already happened: the multer middleware wrote the file to storage before
the handler ran its gate check.  This refutes the claim that the gate
check precedes any file processing and that no file is written on the
duplicate path. -/
theorem c1_gate_checked_after_file_processing_cex :
    (processUpload ["203.0.113.7"] "203.0.113.7"
        (some ⟨"photo.png", "image/png", 2097152⟩)
        "1712000000000-42.png" "2026-01-01T00:00:00.000Z" 3).response.status = 429 ∧
    (processUpload ["203.0.113.7"] "203.0.113.7"
        (some ⟨"photo.png", "image/png", 2097152⟩)
        "1712000000000-42.png" "2026-01-01T00:00:00.000Z" 3).written =
      some "1712000000000-42.png" := by
  decide

/-- Claim C1 (amended): the gate check and insertion happen in the route
handler, after the multer middleware has already processed the file.
When the identifier already has a gate entry and the middleware finished
cleanly on a valid file, the request is rejected 429 and the gate is not
mutated, but the file has already been written to storage. -/
theorem c1_duplicate_rejected_gate_unmutated_file_written
    (gate : List String) (ip : String) (f : IncomingFile) (sn now : String) (el : Nat)
    (hdup : gate.contains ip = true)
    (hfilter : fileFilter f.mimetype f.originalname = true)
    (hsize : f.size ≤ maxFileSize) :
    processUpload gate ip (some f) sn now el = ⟨gate, duplicateResponse, some sn⟩ := by
  have h' : ip ∈ gate := by simpa using hdup
  have hm : multerStage (some f) sn = .saved ⟨f.originalname, f.mimetype, f.size, sn⟩ := by
    simp [multerStage, hfilter, show ¬ f.size > maxFileSize by omega]
  simp [processUpload, hm, uploadHandler, h']

theorem c1_duplicate_rejected_gate_unmutated_file_written_witness :
    processUpload ["10.0.0.1"] "10.0.0.1" (some ⟨"cat.png", "image/png", 5⟩)
        "9-9.png" "2026-01-01T00:00:00.000Z" 1 =
      ⟨["10.0.0.1"], duplicateResponse, some "9-9.png"⟩ :=
  c1_duplicate_rejected_gate_unmutated_file_written ["10.0.0.1"] "10.0.0.1"
    ⟨"cat.png", "image/png", 5⟩ "9-9.png" "2026-01-01T00:00:00.000Z" 1
    (by decide) (by decide) (by decide)

/-- Claim C2: when the client identifier is not already gated, the
request leaves the admission map exactly as it found it on every exit
path (success, missing or rejected file, middleware error), so a
subsequent request from the same identifier is admitted (never answered
429) once the earlier one finishes. -/
theorem c2_gate_entry_released_on_every_path
    (gate : List String) (ip : String) (inc : Option IncomingFile) (sn now : String)
    (el : Nat) (inc2 : Option IncomingFile) (sn2 now2 : String) (el2 : Nat)
    (h : gate.contains ip = false) :
    (processUpload gate ip inc sn now el).gate = gate ∧
    (processUpload (processUpload gate ip inc sn now el).gate
        ip inc2 sn2 now2 el2).response.status ≠ 429 := by
  have hg := processUpload_gate_eq gate ip inc sn now el h
  exact ⟨hg, by rw [hg]; exact processUpload_not_429 gate ip inc2 sn2 now2 el2 h⟩

theorem c2_gate_entry_released_on_every_path_witness :
    (processUpload [] "10.0.0.2" (some ⟨"a.png", "image/png", 9⟩)
        "7-7.png" "2026-01-01T00:00:00.000Z" 1).gate = [] ∧
    (processUpload (processUpload [] "10.0.0.2" (some ⟨"a.png", "image/png", 9⟩)
          "7-7.png" "2026-01-01T00:00:00.000Z" 1).gate
        "10.0.0.2" (some ⟨"b.png", "image/png", 9⟩)
        "8-8.png" "2026-01-01T00:00:00.000Z" 1).response.status ≠ 429 :=
  c2_gate_entry_released_on_every_path [] "10.0.0.2" (some ⟨"a.png", "image/png", 9⟩)
    "7-7.png" "2026-01-01T00:00:00.000Z" 1 (some ⟨"b.png", "image/png", 9⟩)
    "8-8.png" "2026-01-01T00:00:00.000Z" 1 (by decide)

/-- Claim C3 counterexample: the handler guards with a string-prefix
check (indexOf of the directory equals zero), which a sibling directory
whose name extends the storage directory name passes.  The request name
two-dots slash uploadsx slash secret.txt resolves outside the storage
directory, is not answered 403, and the file outside the directory is
served. -/
theorem c3_prefix_check_escape_cex :
    getUploadFileHandler "/app/public/uploads" "../uploadsx/secret.txt" (fun _ => true) =
      ⟨200, .sendFile "/app/public/uploadsx/secret.txt"⟩ ∧
    withinDir "/app/public/uploads"
      (joinAbs "/app/public/uploads" "../uploadsx/secret.txt") = false := by
  decide

/-- Claim C3 (amended): the handler resolves the requested name against
the storage directory and serves the file only if the resolved path has
the storage directory as a string prefix: it responds 403 access-denied
exactly when that prefix check fails, and 404 not-found when the check
passes but the file does not exist; the prefix check is weaker than
directory containment, so names resolving into a sibling directory whose
path extends the storage directory string are served. -/
theorem c3_retrieval_prefix_check (dir name : String) (fsExists : String → Bool) :
    (isPrefixL dir.data (joinAbs dir name).data = false →
      getUploadFileHandler dir name fsExists = ⟨403, .fileErr "Access denied"⟩) ∧
    (isPrefixL dir.data (joinAbs dir name).data = true →
      fsExists (joinAbs dir name) = false →
      getUploadFileHandler dir name fsExists = ⟨404, .fileErr "File not found"⟩) ∧
    (isPrefixL dir.data (joinAbs dir name).data = true →
      fsExists (joinAbs dir name) = true →
      getUploadFileHandler dir name fsExists = ⟨200, .sendFile (joinAbs dir name)⟩) := by
  refine ⟨fun h1 => ?_, fun h1 h2 => ?_, fun h1 h2 => ?_⟩
  · simp [getUploadFileHandler, h1]
  · simp [getUploadFileHandler, h1, h2]
  · simp [getUploadFileHandler, h1, h2]

theorem c3_retrieval_prefix_check_witness :
    getUploadFileHandler "/app/public/uploads" "missing.png" (fun _ => false) =
      ⟨404, .fileErr "File not found"⟩ :=
  (c3_retrieval_prefix_check "/app/public/uploads" "missing.png" (fun _ => false)).2.1
    (by decide) rfl

/-- Claim C4: validation accepts a file iff its declared mime type equals
one of the eight enumerated allowed types or its original filename ends
case-insensitively with one of the eight allowed extensions; a file
matching neither is rejected by the filter (with the descriptive filter
error message). -/
theorem c4_validation_accepts_iff (m n : String) :
    (fileFilter m n = true ↔ specAccepts m n) ∧
    (∀ size sn, fileFilter m n = false →
      multerStage (some ⟨n, m, size⟩) sn = .typeRejected) := by
  constructor
  · have h1 : toLowerL ".jpg".data = ".jpg".data := by decide
    have h2 : toLowerL ".jpeg".data = ".jpeg".data := by decide
    have h3 : toLowerL ".png".data = ".png".data := by decide
    have h4 : toLowerL ".gif".data = ".gif".data := by decide
    have h5 : toLowerL ".webp".data = ".webp".data := by decide
    have h6 : toLowerL ".gltf".data = ".gltf".data := by decide
    have h7 : toLowerL ".glb".data = ".glb".data := by decide
    have h8 : toLowerL ".obj".data = ".obj".data := by decide
    simp [fileFilter, specAccepts, allowedTypes, allowedExts, extRegexMatch, endsWithCI,
      h1, h2, h3, h4, h5, h6, h7, h8]
  · intro size sn h
    simp [multerStage, h]

theorem c4_validation_accepts_iff_witness :
    multerStage (some ⟨"archive.zip", "application/zip", 100⟩) "1-2.zip" =
      .typeRejected :=
  (c4_validation_accepts_iff "application/zip" "archive.zip").2 100 "1-2.zip" (by decide)

/-- Claim C5 counterexample: an oversized file whose type and extension
match nothing is rejected by the type filter before its bytes reach the
size limit, so the response is the generic 500 (the plain filter error is
not a MulterError), not the distinct 400 size-limit message.  This
refutes the claim that exceeding 10 MiB yields the size-limit condition
regardless of the declared type or extension. -/
theorem c5_oversize_disallowed_type_cex :
    (processUpload [] "198.51.100.1" (some ⟨"big.txt", "text/plain", 10 * 1024 * 1024 + 1⟩)
        "1712000000000-7.txt" "2026-01-01T00:00:00.000Z" 2).response =
      ⟨500, .json false "Internal server error"⟩ ∧
    (processUpload [] "198.51.100.1" (some ⟨"big.txt", "text/plain", 10 * 1024 * 1024 + 1⟩)
        "1712000000000-7.txt" "2026-01-01T00:00:00.000Z" 2).response ≠
      ⟨400, .json false "File too large. Maximum size is 10MB."⟩ := by
  decide

/-- Claim C5 (amended): for every uploaded file that passes the type
filter, a payload exceeding 10 MiB fails the request with the 400
size-limit response, whose message is distinct from the type-rejection
response; oversized files failing the type filter receive the
type-rejection path instead. -/
theorem c5_oversize_distinct_error (gate : List String) (ip : String) (f : IncomingFile)
    (sn now : String) (el : Nat)
    (hfilter : fileFilter f.mimetype f.originalname = true)
    (hsize : maxFileSize < f.size) :
    (processUpload gate ip (some f) sn now el).response =
      ⟨400, .json false "File too large. Maximum size is 10MB."⟩ ∧
    (⟨400, .json false "File too large. Maximum size is 10MB."⟩ : Response) ≠
      typeRejectedResponse := by
  have hm : multerStage (some f) sn = .sizeRejected := by
    simp [multerStage, hfilter, hsize]
  exact ⟨by simp [processUpload, hm, globalErrorHandler], by decide⟩

theorem c5_oversize_distinct_error_witness :
    (processUpload [] "10.0.0.3" (some ⟨"big.png", "image/png", 10 * 1024 * 1024 + 1⟩)
        "3-3.png" "2026-01-01T00:00:00.000Z" 2).response =
      ⟨400, .json false "File too large. Maximum size is 10MB."⟩ ∧
    (⟨400, .json false "File too large. Maximum size is 10MB."⟩ : Response) ≠
      typeRejectedResponse :=
  c5_oversize_distinct_error [] "10.0.0.3" ⟨"big.png", "image/png", 10 * 1024 * 1024 + 1⟩
    "3-3.png" "2026-01-01T00:00:00.000Z" 2 (by decide) (by decide)

/-- Claim C6 counterexample: the random component is Math.round of a
value below 1E9, and rounding can reach 1E9 exactly: for the largest
value Math.random can return (one less than 2 to the 53rd over 2 to the
53rd) the component is 1000000000, outside the claimed half-open range. -/
theorem c6_random_component_reaches_upper_bound_cex :
    randomComponent (2 ^ 53 - 1) = 1000000000 ∧
    ¬ randomComponent (2 ^ 53 - 1) < 1000000000 ∧
    storedFilename 1712000000000 (2 ^ 53 - 1) "photo.png" =
      "1712000000000-1000000000.png" := by
  decide

/-- Claim C6 (amended): the stored name is the millisecond timestamp, a
hyphen, Math.round of Math.random times 1E9, and the extension of the
client-supplied name; the random component lies in the closed range from
0 to 1E9 inclusive, not the half-open range. -/
theorem c6_stored_name_format (t k : Nat) (name : String) (hk : k < 2 ^ 53) :
    storedFilename t k name =
      toString t ++ "-" ++ toString (randomComponent k) ++ extname name ∧
    randomComponent k ≤ 1000000000 := by
  refine ⟨rfl, ?_⟩
  have h52 : (2 : Nat) ^ 52 = 4503599627370496 := by norm_num
  have h53 : (2 : Nat) ^ 53 = 9007199254740992 := by norm_num
  unfold randomComponent
  rw [h52, h53]
  rw [h53] at hk
  omega

theorem c6_stored_name_format_witness :
    storedFilename 1712000000000 7 "a.png" =
      toString 1712000000000 ++ "-" ++ toString (randomComponent 7) ++ extname "a.png" ∧
    randomComponent 7 ≤ 1000000000 :=
  c6_stored_name_format 1712000000000 7 "a.png" (by norm_num)

/-- Claim C7: a successful upload is answered 200 with the JSON object
holding exactly success true, the generated filename, the declared
original name, the byte size, the declared mime type, the relative url
built from the slash-uploads-slash part and the generated filename, the
ISO timestamp, and the elapsed time with the ms suffix. -/
theorem c7_success_response_fields (gate : List String) (ip : String) (f : IncomingFile)
    (sn now : String) (el : Nat)
    (hdup : gate.contains ip = false)
    (hfilter : fileFilter f.mimetype f.originalname = true)
    (hsize : f.size ≤ maxFileSize) :
    (processUpload gate ip (some f) sn now el).response =
      ⟨200, .uploadOk ⟨true, sn, f.originalname, f.size, f.mimetype,
        "/uploads/" ++ sn, now, toString el ++ "ms"⟩⟩ := by
  have h' : ip ∉ gate := by simpa using hdup
  have hm : multerStage (some f) sn = .saved ⟨f.originalname, f.mimetype, f.size, sn⟩ := by
    simp [multerStage, hfilter, show ¬ f.size > maxFileSize by omega]
  simp [processUpload, hm, uploadHandler, h']

theorem c7_success_response_fields_witness :
    (processUpload [] "10.0.0.4" (some ⟨"photo.png", "image/png", 2097152⟩)
        "1712000000000-5.png" "2026-01-01T00:00:00.000Z" 4).response =
      ⟨200, .uploadOk ⟨true, "1712000000000-5.png", "photo.png", 2097152, "image/png",
        "/uploads/" ++ "1712000000000-5.png", "2026-01-01T00:00:00.000Z",
        toString 4 ++ "ms"⟩⟩ :=
  c7_success_response_fields [] "10.0.0.4" ⟨"photo.png", "image/png", 2097152⟩
    "1712000000000-5.png" "2026-01-01T00:00:00.000Z" 4 (by decide) (by decide) (by decide)

/-- Claim C8: when every directory entry can be stat-ed, the listing
handler responds 200 with count equal to the number of entries and one
record per entry, whose url joins the slash-uploads-slash part with the
entry name and whose size is the byte size the filesystem reports for
the joined path at scan time. -/
theorem c8_listing_counts_entries (dir : String) (files : List String)
    (sizeOf : String → Nat) :
    uploadsListHandler dir (.entries files) (fun p => some (sizeOf p)) =
      .resp ⟨200, .listing files.length
        (files.map (fun f => ⟨f, "/uploads/" ++ f, sizeOf (joinAbs dir f)⟩))⟩ := by
  have h : ∀ l : List String, statAll dir (fun p => some (sizeOf p)) l =
      some (l.map (fun f => ⟨f, "/uploads/" ++ f, sizeOf (joinAbs dir f)⟩)) := by
    intro l
    induction l with
    | nil => rfl
    | cons a l ih => simp [statAll, ih]
  simp [uploadsListHandler, h files, List.length_map]

/-- Claim C10: the listing handler assumes every scanned entry can still
be stat-ed: if the stat of some listed entry fails, the handler ends by
raising the exception rather than producing any response, in particular
not the 500 JSON reserved for a failed directory read. -/
theorem c10_listing_stat_failure_throws (dir : String) (files : List String)
    (stat : String → Option Nat) (f : String) (hf : f ∈ files)
    (hstat : stat (joinAbs dir f) = none) :
    uploadsListHandler dir (.entries files) stat = .thrown ∧
    uploadsListHandler dir (.entries files) stat ≠
      .resp ⟨500, .json false "Failed to read uploads directory"⟩ := by
  have h : statAll dir stat files = none := by
    induction files with
    | nil => cases hf
    | cons a l ih =>
      rcases List.mem_cons.mp hf with rfl | hmem
      · simp [statAll, hstat]
      · rw [statAll, ih hmem]
        rcases stat (joinAbs dir a) with _ | sz <;> rfl
  constructor <;> simp [uploadsListHandler, h]

theorem c10_listing_stat_failure_throws_witness :
    uploadsListHandler "/app/public/uploads" (.entries ["gone.png"]) (fun _ => none) =
      .thrown ∧
    uploadsListHandler "/app/public/uploads" (.entries ["gone.png"]) (fun _ => none) ≠
      .resp ⟨500, .json false "Failed to read uploads directory"⟩ :=
  c10_listing_stat_failure_throws "/app/public/uploads" ["gone.png"] (fun _ => none)
    "gone.png" (by decide) rfl

end VirtualTryOn
